import Mathlib

/-!
# Verification of the `Star` spectroscopy-download layer

Shallow embedding of `src/DACEspecDL/Star.py`.  Python dictionaries are
modelled as insertion-ordered association lists (`List (κ × α)`); dictionary
iteration order is insertion order, matching Python 3.7+.  Fallible Python
operations (`d[k]` raising `KeyError`, `None.upper()` raising
`AttributeError`, tuple unpacking raising `ValueError`, indexing an empty
column raising `IndexError`) are modelled with `Option` / `Except PyErr`.
-/

namespace DACE

/-- Python exception kinds raised by the code under verification. -/
inductive PyErr : Type where
  | keyError
  | attributeError
  | valueError
  | indexError
  | notFoundError
deriving DecidableEq, Repr

/-- `d[k]` on a Python dict: first (unique) binding of `k`. -/
def dictLookup {κ α : Type} [DecidableEq κ] : List (κ × α) → κ → Option α
  | [], _ => none
  | (k1, v) :: rest, k => if k1 = k then some v else dictLookup rest k

/-- `k in d` on a Python dict. -/
def hasKey {κ α : Type} [DecidableEq κ] (d : List (κ × α)) (k : κ) : Bool :=
  (dictLookup d k).isSome

/-- `d[k] = v` on a Python dict: update in place if present, else append
(insertion order preserved, matching Python 3.7+ dict semantics). -/
def dictSet {κ α : Type} [DecidableEq κ] : List (κ × α) → κ → α → List (κ × α)
  | [], k, v => [(k, v)]
  | (k1, v1) :: rest, k, v =>
      if k1 = k then (k1, v) :: rest else (k1, v1) :: dictSet rest k v

/-- Does `needle` occur at the head of `hay` (character lists)? -/
def charsMatchFrom : List Char → List Char → Bool
  | [], _ => true
  | _ :: _, [] => false
  | a :: as, b :: bs => a = b && charsMatchFrom as bs

/-- Python `needle in hay` on strings: substring containment. -/
def strContains (hay needle : String) : Bool :=
  (List.range (hay.data.length + 1)).any fun i =>
    charsMatchFrom needle.data (hay.data.drop i)

/-- Python `s.startswith(pre)`, and the file-name test performed by the glob
pattern `{stem}*`. -/
def strStartsWith (s pre : String) : Bool :=
  charsMatchFrom pre.data s.data

/-- Worker for Python `s.split(sep)` with non-empty `sep`: scan left to
right, cutting at each non-overlapping occurrence of `sep`.  `acc` holds the
current fragment reversed; the fuel (always at least `length + 1` at the
first call) makes the recursion structural. -/
def splitChars (sep : List Char) : Nat → List Char → List Char →
    List (List Char)
  | 0, acc, rest => [acc.reverse ++ rest]
  | _ + 1, acc, [] => [acc.reverse]
  | fuel + 1, acc, c :: cs =>
    if charsMatchFrom sep (c :: cs) then
      acc.reverse :: splitChars sep fuel [] ((c :: cs).drop sep.length)
    else
      splitChars sep fuel (c :: acc) cs

/-- Python `s.split(sep)` (a non-empty separator, as in the source's
`file.split("/")` and `….split(".fits")`). -/
def pySplit (s sep : String) : List String :=
  (splitChars sep.data (s.data.length + 1) [] s.data).map String.mk

/-- Python `s.upper()` (the source only applies it to ASCII instrument
names). -/
def pyUpper (s : String) : String :=
  String.mk (s.data.map Char.toUpper)

/-- Python `s.replace(old, new)` for non-empty `old`: equal to joining the
`old`-split fragments with `new`. -/
def pyReplace (s old new : String) : String :=
  String.mk (List.intercalate new.data
    (splitChars old.data (s.data.length + 1) [] s.data))

/-- Python `s[:n]`: the first `n` characters. -/
def pyTake (s : String) (n : Nat) : String :=
  String.mk (s.data.take n)

/-- Leaf of the time-series mapping: metric name → value. -/
abbrev Leaf (α : Type) := List (String × α)

/-- Observation-mode level: OBS mode → leaf. -/
abbrev ObsDict (α : Type) := List (String × Leaf α)

/-- Pipeline level: pipeline identifier → OBS-mode dict. -/
abbrev PipeDict (α : Type) := List (String × ObsDict α)

/-- The three-level cached time-series mapping of a `Star`:
instrument → pipeline → OBS mode → metric dict (docstring of `Star._data`). -/
abbrev Data (α : Type) := List (String × PipeDict α)

/-- Value yielded by `data_to_iterate_over` besides the three key names:
either the full leaf dict (`get_full_dict=True`) or the looked-up metric
(`data_3[metric_name]`; `none` models the `KeyError` case). -/
inductive IterVal (α : Type) : Type where
  | full (d : Leaf α)
  | metric (v : Option α)
deriving DecidableEq, Repr

/-- `reject_iter = lambda x, y: x is not None and x not in y`
(`Star.data_to_iterate_over`, line 198). -/
def reject_iter (x : Option String) (y : String) : Bool :=
  match x with
  | none => false
  | some t => ! strContains y t

/-- `Star.data_to_iterate_over` (lines 184–214): nested loops over the three
levels with a `continue` on `reject_iter` at each level, yielding
`(instrument_name, pipe_name, OBS_name, value)` tuples in order.  The
loop-with-continue structure is embedded as filter-then-bind at each level. -/
def data_to_iterate_over {α : Type} (metric_name : String)
    (instrument OBS_mode pipe_identifier : Option String)
    (get_full_dict : Bool) (d : Data α) :
    List (String × String × String × IterVal α) :=
  (d.filter fun p => ! reject_iter instrument p.1).flatMap fun p =>
    (p.2.filter fun q => ! reject_iter pipe_identifier q.1).flatMap fun q =>
      (q.2.filter fun r => ! reject_iter OBS_mode r.1).map fun r =>
        (p.1, q.1, r.1,
          if get_full_dict then IterVal.full r.2
          else IterVal.metric (dictLookup r.2 metric_name))

/-- `Star.get_available_instruments` (line 39): `list(self._data.keys())`. -/
def get_available_instruments {α : Type} (d : Data α) : List String :=
  d.map Prod.fst

/-- `Star.get_pipelines_of_instrument` (line 42):
`list(self._data[instrument].keys())`; `none` models the `KeyError`. -/
def get_pipelines_of_instrument {α : Type} (d : Data α) (instrument : String) :
    Option (List String) :=
  (dictLookup d instrument).map fun inner => inner.map Prod.fst

/-- `Star.get_OBS_modes` (lines 45–54).  The Python test is
`instrument not in available or pipeline not in pipelines(instrument)` with
short-circuit `or`, so when the instrument is absent the first disjunct fires
and the (would-fail) pipeline lookup is never reached; the `getD []` defaults
below are unreachable in exactly those protected situations. -/
def get_OBS_modes {α : Type} (d : Data α) (instrument pipeline : String) :
    Except PyErr (List String) :=
  if !(get_available_instruments d).contains instrument
      || !(((dictLookup d instrument).getD []).map Prod.fst).contains pipeline
  then .error .notFoundError
  else .ok
    (((dictLookup ((dictLookup d instrument).getD []) pipeline).getD []).map
      Prod.fst)

/-- Output of `Star.get_header_info`:
instrument → OBS mode → pipeline → (requested metric → value).  Inner values
are `Option α`: `none` models the `KeyError` of `data[i]` on a leaf missing a
requested keyword. -/
abbrev HeaderDict (α : Type) :=
  List (String × List (String × List (String × List (String × Option α))))

/-- Loop body of `Star.get_header_info` (lines 70–77), one traversal item.
Note line 74 of the source: when `OBS_name` is not yet present, the code runs
`data_dict[instrument_name] = {OBS_name: {}}`, replacing the whole
instrument-level dict instead of inserting into it. -/
def header_step {α : Type} (kw_to_get : List String) (data_dict : HeaderDict α)
    (it : String × String × String × IterVal α) : HeaderDict α :=
  match it with
  | (instrument_name, pipe_name, OBS_name, IterVal.full data) =>
    let d1 := if ! hasKey data_dict instrument_name then
        dictSet data_dict instrument_name [] else data_dict
    let inst1 := (dictLookup d1 instrument_name).getD []
    let d2 := if ! hasKey inst1 OBS_name then
        dictSet d1 instrument_name [(OBS_name, [])] else d1
    let inst2 := (dictLookup d2 instrument_name).getD []
    let obs2 := (dictLookup inst2 OBS_name).getD []
    if ! hasKey obs2 pipe_name then
      dictSet d2 instrument_name
        (dictSet inst2 OBS_name
          (dictSet obs2 pipe_name (kw_to_get.map fun i => (i, dictLookup data i))))
    else d2
  | (_, _, _, IterVal.metric _) => data_dict

/-- `Star.get_header_info` (lines 56–79): drives `data_to_iterate_over` with
`metric_name="rv"` and `get_full_dict=True` and folds `header_step` over the
yielded items, starting from the empty dict. -/
def get_header_info {α : Type} (kw_to_get : List String)
    (instrument OBS_mode pipe_identifier : Option String) (d : Data α) :
    HeaderDict α :=
  (data_to_iterate_over "rv" instrument OBS_mode pipe_identifier true d).foldl
    (header_step kw_to_get) []

/-- A destination directory, as path components relative to the filesystem
root (`output_path / store_inst_name / store_pipe_name` becomes
`output_path ++ [store_inst_name, store_pipe_name]`). -/
abbrev DirPath := List String

/-- `file.split("/")[-1].split(".fits")[0]` (line 139): the candidate's stem —
last path component with the `.fits` suffix and anything after it removed. -/
def stem_of (file : String) : String :=
  ((pySplit ((pySplit file "/").getLastD "") ".fits").headD "")

/-- State threaded through the grouping loop of `Star.download_data`
(lines 115–143): the running `count` and the insertion-ordered
`file_list_to_download` dict (destination directory → pending files). -/
structure DLState : Type where
  count : Nat
  batch : List (DirPath × List String)
deriving DecidableEq, Repr

/-- `len(similar_files) != 0 and not force_download` (line 140): the skip
decision for one candidate file.  `fs dir` lists the names of the files
already existing anywhere under the directory tree `dir`, so
`modifier.glob(f'**/{stem}*')` is non-empty iff some such name starts with
the candidate's stem. -/
def file_skipped (fs : DirPath → List String) (force_download : Bool)
    (modifier : DirPath) (file : String) : Bool :=
  ((fs modifier).any fun n => strStartsWith n (stem_of file))
    && ! force_download

/-- Inner loop body of `Star.download_data` (lines 128–143), one candidate
remote file: split off instrument and pipeline names (a split with fewer than
two parts raises `ValueError`), compute the destination `modifier`, ensure the
batch has an entry for it, then either skip the candidate (it stays out of the
batch) or append it to its destination's list. -/
def file_step (fs : DirPath → List String) (output_path : DirPath)
    (allow_subfolders force_download : Bool) (st : DLState) (file : String) :
    Except PyErr DLState :=
  match pySplit file "/" with
  | store_inst_name :: store_pipe_name :: _ =>
    let modifier := if allow_subfolders then
        output_path ++ [store_inst_name, store_pipe_name] else output_path
    let st1 : DLState := if ! hasKey st.batch modifier then
        ⟨st.count, dictSet st.batch modifier []⟩ else st
    if file_skipped fs force_download modifier file then .ok st1
    else .ok ⟨st1.count,
      dictSet st1.batch modifier
        ((dictLookup st1.batch modifier).getD [] ++ [file])⟩
  | _ => .error .valueError

/-- Outer loop body of `Star.download_data` (lines 123–143), one traversal
item: bump `count`, then run `file_step` over the leaf's `raw_file` list.  A
leaf without the `raw_file` metric would have raised `KeyError` inside the
generator; `get_full_dict` is `False` here so the `full` case never arises. -/
def process_item (fs : DirPath → List String) (output_path : DirPath)
    (allow_subfolders force_download : Bool) (st : DLState)
    (it : String × String × String × IterVal (List String)) :
    Except PyErr DLState :=
  match it.2.2.2 with
  | IterVal.full _ => .ok st
  | IterVal.metric none => .error .keyError
  | IterVal.metric (some files) =>
    files.foldlM (file_step fs output_path allow_subfolders force_download)
      ⟨st.count + 1, st.batch⟩

/-- `if instrument.upper() == "HARPSN"` (lines 119–121): the alias
normalization step of `Star.download_data`.  Returns the instrument actually
used for filtering together with the number of warnings emitted. -/
def normalize_instrument (instrument : String) : String × Nat :=
  if pyUpper instrument = "HARPSN" then ("HARPN", 1) else (instrument, 0)

/-- Batch-building phase of `Star.download_data` after alias normalization
(lines 115–143): traverse with `metric_name="raw_file"` and the given filters
and fold `process_item`.  Returns `(count, file_list_to_download)`. -/
def download_core (d : Data (List String)) (fs : DirPath → List String)
    (output_path : DirPath) (force_download : Bool) (instrument : String)
    (OBS_mode pipe_identifier : Option String) (allow_subfolders : Bool) :
    Except PyErr (Nat × List (DirPath × List String)) :=
  ((data_to_iterate_over "raw_file" (some instrument) OBS_mode pipe_identifier
      false d).foldlM
    (process_item fs output_path allow_subfolders force_download)
    ⟨0, []⟩).map fun st => (st.count, st.batch)

/-- `Star.download_data` up to the grouping of files by destination directory
(lines 91–143).  `instrument = none` models passing `instrument=None`:
`instrument.upper()` then raises `AttributeError` before any traversal or
filesystem access.  The result carries `(count, file_list_to_download,
number of alias warnings emitted)`. -/
def download_data (d : Data (List String)) (fs : DirPath → List String)
    (output_path : DirPath) (force_download : Bool)
    (instrument : Option String) (OBS_mode pipe_identifier : Option String)
    (allow_subfolders : Bool) :
    Except PyErr (Nat × List (DirPath × List String) × Nat) :=
  match instrument with
  | none => .error .attributeError
  | some inst0 =>
    let n := normalize_instrument inst0
    (download_core d fs output_path force_download n.1 OBS_mode
        pipe_identifier allow_subfolders).map fun r => (r.1, r.2, n.2)

/-- `Star.get_pipe_KW` (lines 257–272).  Outer `Except`: the `KeyError` of
`self._data[instrument]` inside `get_pipelines_of_instrument`.  Inner
`Option`: the function falls off the end (Python returns `None`) when no rule
applies.  A hint dict lacking the instrument raises `KeyError`, which is
caught (with a logged warning) and control falls through to the hard-coded
defaults. -/
def get_pipe_KW {α : Type} (pipe_KW_hint : Option (List (String × String)))
    (d : Data α) (instrument : String) : Except PyErr (Option String) :=
  match get_pipelines_of_instrument d instrument with
  | none => .error .keyError
  | some available_pipes =>
    if available_pipes.length = 1 then .ok available_pipes.head?
    else
      let fallthrough : Except PyErr (Option String) :=
        .ok (if strContains instrument "ESPRESSO" then some "3.0.0"
          else if strContains instrument "HARPN" then some "2.3.5"
          else none)
      match pipe_KW_hint with
      | some hint =>
        match dictLookup hint instrument with
        | some v => .ok (some v)
        | none => fallthrough
      | none => fallthrough

/-- The pipeline-resolution policy exactly as the spec words it (claim C5's
ordered rules), written independently of the source control flow: (1) a
single available pipeline wins regardless of the hint; (2) else a hint entry
for the instrument wins; (3) else the family defaults, `ESPRESSO` before
`HARPN`; (4) else no usable identifier. -/
def pipe_policy_spec (pipe_KW_hint : Option (List (String × String)))
    (available_pipes : List String) (instrument : String) : Option String :=
  if available_pipes.length = 1 then available_pipes.head?
  else
    match pipe_KW_hint.bind fun hint => dictLookup hint instrument with
    | some v => some v
    | none =>
      if strContains instrument "ESPRESSO" then some "3.0.0"
      else if strContains instrument "HARPN" then some "2.3.5"
      else none

/-- `Star.spectral_type` (lines 274–289).  The argument is the SIMBAD query
result, reduced to its `SP_TYPE` column (`none` models `query_object`
returning `None`).  Line 285 runs `print(r.keys())` BEFORE the `None` check,
so a `None` result raises `AttributeError` there and the explicit
`raise Exception("Couldn't find …")` on line 287 is unreachable.  An empty
column makes `r["SP_TYPE"][0]` raise `IndexError`. -/
def spectral_type (query_result : Option (List String)) : Except PyErr String :=
  match query_result with
  | none => .error .attributeError
  | some col =>
    match col with
    | [] => .error .indexError
    | s :: _ => .ok (pyReplace (pyTake s 2) "d" "")

/-- The cache slot that `functools.cached_property` keeps in the instance
`__dict__` for `Star._data` (line 23): empty until the first read. -/
structure CachedData (α : Type) : Type where
  cache : Option (Data α)

/-- One read of `Star._data` under `functools.cached_property` semantics: a
hit returns the stored mapping and fetches nothing; a miss calls
`Spectroscopy.get_timeseries` once (modelled by `fetch`, indexed by the
current upstream archive state `t`) and stores the result.  Returns the
mapping seen, the new cache state, and the number of fetches performed. -/
def read_data {α : Type} (fetch : Nat → Data α) (t : Nat)
    (st : CachedData α) : Data α × CachedData α × Nat :=
  match st.cache with
  | some d => (d, st, 0)
  | none => (fetch t, ⟨some (fetch t)⟩, 1)

/-- A sequence of reads of `Star._data` during one instance's lifetime, each
at some upstream archive state: returns the mappings seen by each read, the
final cache state, and the total number of archive fetches. -/
def read_trace {α : Type} (fetch : Nat → Data α) (st : CachedData α) :
    List Nat → List (Data α) × CachedData α × Nat
  | [] => ([], st, 0)
  | t :: ts =>
    let r1 := read_data fetch t st
    let rs := read_trace fetch r1.2.1 ts
    (r1.1 :: rs.1, rs.2.1, r1.2.2 + rs.2.2)

/-! ## Derived specification-side definitions -/

/-- The canonical once-per-leaf enumeration of a three-level mapping: one
tuple per observation-mode entry, in traversal order, carrying the three key
names and the leaf's value (or the full leaf dict). -/
def all_leaves {α : Type} (metric_name : String) (get_full_dict : Bool)
    (d : Data α) : List (String × String × String × IterVal α) :=
  d.flatMap fun p =>
    p.2.flatMap fun q =>
      q.2.map fun r =>
        (p.1, q.1, r.1,
          if get_full_dict then IterVal.full r.2
          else IterVal.metric (dictLookup r.2 metric_name))

/-- Number of leaves (observation-mode entries) of a three-level mapping. -/
def num_leaves {α : Type} (d : Data α) : Nat :=
  (d.map fun p => (p.2.map fun q => q.2.length).sum).sum

/-- A level key passes a filter when the filter is absent or the filter token
is a substring of (possibly equal to) the key: the negation of
`reject_iter`. -/
def level_accepts (f : Option String) (k : String) : Bool :=
  ! reject_iter f k

/-- Restriction of a three-level mapping to the subtrees whose keys pass the
corresponding filter: instrument filter at level one, pipeline filter at
level two, OBS-mode filter at level three. -/
def filter_data {α : Type} (instrument OBS_mode pipe_identifier : Option String)
    (d : Data α) : Data α :=
  (d.filter fun p => level_accepts instrument p.1).map fun p =>
    (p.1, (p.2.filter fun q => level_accepts pipe_identifier q.1).map fun q =>
      (q.1, q.2.filter fun r => level_accepts OBS_mode r.1))

/-! ## Helper lemmas -/

lemma dictLookup_dictSet_self {κ α : Type} [DecidableEq κ]
    (d : List (κ × α)) (k : κ) (v : α) :
    dictLookup (dictSet d k v) k = some v := by
  induction d with
  | nil => simp [dictSet, dictLookup]
  | cons p d ih =>
    obtain ⟨k1, v1⟩ := p
    by_cases h : k1 = k
    · simp [dictSet, dictLookup, h]
    · simp [dictSet, dictLookup, h, ih]

lemma dictLookup_isSome_iff {κ α : Type} [DecidableEq κ]
    (d : List (κ × α)) (k : κ) :
    (dictLookup d k).isSome = true ↔ k ∈ d.map Prod.fst := by
  induction d with
  | nil => simp [dictLookup]
  | cons p d ih =>
    obtain ⟨k1, v1⟩ := p
    by_cases h : k1 = k
    · simp [dictLookup, h]
    · simp [dictLookup, h, ih, Ne.symm h]

lemma mem_keys_of_dictLookup_some {κ α : Type} [DecidableEq κ]
    {d : List (κ × α)} {k : κ} {v : α} (h : dictLookup d k = some v) :
    k ∈ d.map Prod.fst := by
  rw [← dictLookup_isSome_iff, h]
  rfl

lemma filter_accepts_none {β : Type} (l : List (String × β)) :
    (l.filter fun p => ! reject_iter none p.1) = l := by
  simp [reject_iter]

lemma filter_accepts_some_eq_nil {β : Type} {l : List (String × β)} {t : String}
    (h : ∀ k ∈ l.map Prod.fst, strContains k t = false) :
    (l.filter fun p => ! reject_iter (some t) p.1) = [] := by
  rw [List.filter_eq_nil_iff]
  intro a ha
  have : strContains a.1 t = false := h a.1 (List.mem_map_of_mem Prod.fst ha)
  simp [reject_iter, this]

lemma iterate_none_eq_all_leaves {α : Type} (m : String) (g : Bool)
    (d : Data α) :
    data_to_iterate_over m none none none g d = all_leaves m g d := by
  simp only [data_to_iterate_over, all_leaves, filter_accepts_none]

lemma length_flatMap_eq_sum {β γ : Type} (l : List β) (f : β → List γ) :
    (l.flatMap f).length = (l.map fun b => (f b).length).sum := by
  induction l with
  | nil => rfl
  | cons b l ih => simp [List.flatMap_cons, ih]

lemma all_leaves_length {α : Type} (m : String) (g : Bool) (d : Data α) :
    (all_leaves m g d).length = num_leaves d := by
  simp [all_leaves, num_leaves, length_flatMap_eq_sum, Function.comp_def]

lemma iterate_eq_iterate_filter_data {α : Type} (m : String)
    (fi fo fp : Option String) (g : Bool) (d : Data α) :
    data_to_iterate_over m fi fo fp g d =
      data_to_iterate_over m none none none g (filter_data fi fo fp d) := by
  simp only [data_to_iterate_over, filter_data, level_accepts,
    filter_accepts_none, List.flatMap_map]

/-! ## Claim theorems -/

/-- C1: for every populated three-level time-series mapping,
`data_to_iterate_over` with metric name `m` and all three filter arguments
absent yields exactly one tuple per leaf (observation-mode entry), in
traversal order — each tuple carrying the instrument, pipeline and OBS-mode
key names together with that leaf's value for metric `m` (or the full leaf
dict when `get_full_dict` is set) — and yields nothing else: the output is
exactly the once-per-leaf enumeration `all_leaves`, and its length is the
number of leaves. -/
theorem C1_iterate_visits_every_leaf_once {α : Type} (m : String) (g : Bool)
    (d : Data α) :
    data_to_iterate_over m none none none g d = all_leaves m g d ∧
    (data_to_iterate_over m none none none g d).length = num_leaves d := by
  refine ⟨iterate_none_eq_all_leaves m g d, ?_⟩
  rw [iterate_none_eq_all_leaves m g d, all_leaves_length]

/-- C2: every non-absent filter argument of `data_to_iterate_over` makes the
traversal descend into a subtree exactly when the filter token is contained
in (or equal to) that level's key: (1) filtered traversal coincides with the
unfiltered traversal of the level-wise restricted mapping; (2) an instrument
filter contained in no instrument key yields the empty sequence; (3) an
instrument filter contained in exactly one instrument key yields exactly the
leaves of that key's subtree. -/
theorem C2_filters_restrict_by_containment {α : Type} :
    (∀ (m : String) (fi fo fp : Option String) (g : Bool) (d : Data α),
      data_to_iterate_over m fi fo fp g d =
        data_to_iterate_over m none none none g (filter_data fi fo fp d))
    ∧ (∀ (m t : String) (g : Bool) (d : Data α),
        (∀ k ∈ d.map Prod.fst, strContains k t = false) →
        data_to_iterate_over m (some t) none none g d = [])
    ∧ (∀ (m t k : String) (g : Bool) (sub : PipeDict α) (pre post : Data α),
        strContains k t = true →
        (∀ k2 ∈ (pre ++ post).map Prod.fst, strContains k2 t = false) →
        data_to_iterate_over m (some t) none none g (pre ++ (k, sub) :: post) =
          data_to_iterate_over m none none none g [(k, sub)]) := by
  refine ⟨fun m fi fo fp g d => iterate_eq_iterate_filter_data m fi fo fp g d,
    fun m t g d h => ?_, fun m t k g sub pre post hk hother => ?_⟩
  · simp only [data_to_iterate_over, filter_accepts_some_eq_nil h,
      List.flatMap_nil]
  · have hpre : ∀ k2 ∈ pre.map Prod.fst, strContains k2 t = false := by
      intro k2 hk2
      exact hother k2 (by simp at hk2 ⊢; exact Or.inl hk2)
    have hpost : ∀ k2 ∈ post.map Prod.fst, strContains k2 t = false := by
      intro k2 hk2
      exact hother k2 (by simp at hk2 ⊢; exact Or.inr hk2)
    simp only [data_to_iterate_over, List.filter_append,
      filter_accepts_some_eq_nil hpre, filter_accepts_some_eq_nil hpost,
      List.filter_cons, filter_accepts_none]
    simp [reject_iter, hk]

/-- Witness for C2 on a concrete two-instrument mapping: the token `"ZZZ"`
matches no instrument key and yields nothing; the token `"PRESso"` is wrong
case and matches nothing; the token `"ESPRESSO"` matches exactly the key
`"ESPRESSO19"` and yields exactly that subtree's leaves. -/
theorem C2_filters_witness :
    data_to_iterate_over "rv" (some "ZZZ") none none false
      ([("HARPN", [("p", [("HR", [("rv", 1)])])]),
        ("ESPRESSO19", [("q", [("HR", [("rv", 2)])])])] : Data Nat) = []
    ∧ data_to_iterate_over "rv" (some "ESPRESSO") none none false
        ([("HARPN", [("p", [("HR", [("rv", 1)])])]),
          ("ESPRESSO19", [("q", [("HR", [("rv", 2)])])])] : Data Nat) =
      data_to_iterate_over "rv" none none none false
        ([("ESPRESSO19", [("q", [("HR", [("rv", 2)])])])] : Data Nat) := by
  constructor
  · exact C2_filters_restrict_by_containment.2.1 "rv" "ZZZ" false
      [("HARPN", [("p", [("HR", [("rv", 1)])])]),
       ("ESPRESSO19", [("q", [("HR", [("rv", 2)])])])] (by decide)
  · exact C2_filters_restrict_by_containment.2.2 "rv" "ESPRESSO" "ESPRESSO19"
      false [("q", [("HR", [("rv", 2)])])]
      [("HARPN", [("p", [("HR", [("rv", 1)])])])] [] (by decide) (by decide)

/-- C3 (code bug): on a mapping with one instrument, one pipeline and two
observation modes, the traversal visits both leaves, yet `get_header_info`
returns a mapping in which the entry recorded for the earlier mode `"O1"` is
gone — line 74 (`data_dict[instrument_name] = {OBS_name: {}}`) replaces the
whole instrument-level dict when a new OBS mode arrives, so the visited leaf
for `"O1"` is lost from the output, contradicting the claim. -/
theorem C3_header_info_overwrites_earlier_modes :
    (data_to_iterate_over "rv" none none none true
      ([("I", [("P", [("O1", [("rv", 1)]), ("O2", [("rv", 2)])])])] :
        Data Nat)).length = 2
    ∧ get_header_info ["rv"] none none none
        ([("I", [("P", [("O1", [("rv", 1)]), ("O2", [("rv", 2)])])])] :
          Data Nat) =
      [("I", [("O2", [("P", [("rv", some 2)])])])]
    ∧ dictLookup ((dictLookup (get_header_info ["rv"] none none none
        ([("I", [("P", [("O1", [("rv", 1)]), ("O2", [("rv", 2)])])])] :
          Data Nat)) "I").getD []) "O1" = none := by
  refine ⟨rfl, rfl, rfl⟩

/-- C4: in the grouping loop of `download_data`, a candidate remote file is
excluded from its destination directory's batch exactly when some file whose
name starts with the candidate's stem already exists anywhere under that
destination tree and `force_download` is off; with `force_download` on the
candidate is appended regardless.  `file_step` is the loop body of lines
128–143; `modifier` is the candidate's destination directory. -/
theorem C4_skip_iff_similar_file_exists (fs : DirPath → List String)
    (output_path modifier : DirPath) (allow_subfolders force_download : Bool)
    (st : DLState) (file a b : String) (rest : List String)
    (hsplit : pySplit file "/" = a :: b :: rest)
    (hmod : modifier =
      if allow_subfolders then output_path ++ [a, b] else output_path) :
    ∃ st2 : DLState,
      file_step fs output_path allow_subfolders force_download st file =
        .ok st2
      ∧ st2.count = st.count
      ∧ dictLookup st2.batch modifier = some
          (if ((fs modifier).any fun n => strStartsWith n (stem_of file))
              && ! force_download
           then (dictLookup st.batch modifier).getD []
           else (dictLookup st.batch modifier).getD [] ++ [file]) := by
  subst hmod
  unfold file_step
  rw [hsplit]
  set modifier :=
    if allow_subfolders then output_path ++ [a, b] else output_path with hmod
  set st1 : DLState := if ! hasKey st.batch modifier then
      ⟨st.count, dictSet st.batch modifier []⟩ else st with hst1
  have hlook : dictLookup st1.batch modifier =
      some ((dictLookup st.batch modifier).getD []) := by
    rw [hst1]
    by_cases h : hasKey st.batch modifier
    · simp only [h, Bool.not_true, Bool.false_eq_true, if_false]
      unfold hasKey at h
      obtain ⟨v, hv⟩ := Option.isSome_iff_exists.mp h
      rw [hv]
      rfl
    · have h2 : dictLookup st.batch modifier = none := by
        unfold hasKey at h
        exact Option.not_isSome_iff_eq_none.mp (by simpa using h)
      simp only [Bool.not_eq_true] at h
      simp only [h, Bool.not_false, if_true, dictLookup_dictSet_self, h2]
      rfl
  have hcount : st1.count = st.count := by
    rw [hst1]
    by_cases h : hasKey st.batch modifier <;> simp [h]
  by_cases hskip : file_skipped fs force_download modifier file
  · refine ⟨st1, ?_, hcount, ?_⟩
    · simp only [hskip, if_true]
    · rw [hlook]
      unfold file_skipped at hskip
      rw [hskip]
      rfl
  · refine ⟨⟨st1.count,
      dictSet st1.batch modifier
        ((dictLookup st1.batch modifier).getD [] ++ [file])⟩, ?_, hcount, ?_⟩
    · simp only [hskip, Bool.false_eq_true, if_false]
    · simp only [dictLookup_dictSet_self, hlook]
      unfold file_skipped at hskip
      rw [Bool.not_eq_true] at hskip
      rw [hskip]
      simp [Option.getD]

/-- Witness for C4: with `"x1.fits"` already on disk under the destination
tree, the candidate `"HARPN/1.0/x1.fits"` (stem `"x1"`) is excluded from the
batch of `["out", "HARPN", "1.0"]` when `force_download` is off. -/
theorem C4_skip_witness :
    ∃ st2 : DLState,
      file_step (fun _ => ["x1.fits"]) ["out"] true false ⟨3, []⟩
        "HARPN/1.0/x1.fits" = .ok st2
      ∧ st2.count = 3
      ∧ dictLookup st2.batch ["out", "HARPN", "1.0"] = some [] := by
  obtain ⟨st2, h1, h2, h3⟩ := C4_skip_iff_similar_file_exists
    (fun _ => ["x1.fits"]) ["out"] ["out", "HARPN", "1.0"] true false
    ⟨3, []⟩ "HARPN/1.0/x1.fits" "HARPN" "1.0" ["x1.fits"] (by decide) rfl
  refine ⟨st2, h1, h2, ?_⟩
  rw [h3]
  decide

/-- C5: `get_pipe_KW` follows the ordered policy of `pipe_policy_spec`
whenever the instrument has a pipeline dict: a single available pipeline wins
regardless of the hint mapping; else a hint entry for the instrument wins;
else the hard-coded family defaults (`"ESPRESSO"` → `"3.0.0"`, `"HARPN"` →
`"2.3.5"`); else no usable identifier (`none`, Python's implicit `None`). -/
theorem C5_pipe_resolution_policy {α : Type}
    (pipe_KW_hint : Option (List (String × String))) (d : Data α)
    (instrument : String) (pd : PipeDict α)
    (h : dictLookup d instrument = some pd) :
    get_pipe_KW pipe_KW_hint d instrument =
      .ok (pipe_policy_spec pipe_KW_hint (pd.map Prod.fst) instrument) := by
  unfold get_pipe_KW get_pipelines_of_instrument pipe_policy_spec
  rw [h]
  simp only [Option.map_some']
  by_cases hlen : (pd.map Prod.fst).length = 1
  · simp [hlen]
  · simp only [hlen, if_false]
    cases pipe_KW_hint with
    | none => simp
    | some hint => cases hh : dictLookup hint instrument <;> simp [hh]

/-- Witness for C5: instrument `"X"` has two pipelines and the hint mapping
binds `"X"` to `"9"`, so the hinted value is returned. -/
theorem C5_pipe_resolution_witness :
    get_pipe_KW (some [("X", "9")])
      ([("X", [("p1", []), ("p2", [])])] : Data Nat) "X" = .ok (some "9") := by
  have h := C5_pipe_resolution_policy (some [("X", "9")])
    ([("X", [("p1", []), ("p2", [])])] : Data Nat) "X"
    [("p1", []), ("p2", [])] rfl
  rw [h]
  rfl

/-- C6: `get_OBS_modes` fails with the not-found error whenever the
instrument is not a key of the cached mapping, and independently whenever the
pipeline is not a key of that instrument's pipeline dict (membership tested
against the key lists, both validated before indexing); when both memberships
hold it returns the ordered list of observation-mode keys. -/
theorem C6_obs_modes_membership {α : Type} (d : Data α)
    (instrument pipeline : String) :
    (instrument ∉ get_available_instruments d →
      get_OBS_modes d instrument pipeline = .error .notFoundError)
    ∧ (∀ pipes, get_pipelines_of_instrument d instrument = some pipes →
        pipeline ∉ pipes →
        get_OBS_modes d instrument pipeline = .error .notFoundError)
    ∧ (∀ (pd : PipeDict α) (od : ObsDict α),
        dictLookup d instrument = some pd →
        dictLookup pd pipeline = some od →
        get_OBS_modes d instrument pipeline = .ok (od.map Prod.fst)) := by
  refine ⟨fun h => ?_, fun pipes hp hnp => ?_, fun pd od hpd hod => ?_⟩
  · unfold get_OBS_modes
    have hc : (get_available_instruments d).contains instrument = false := by
      simpa using h
    rw [hc]
    rfl
  · unfold get_OBS_modes
    unfold get_pipelines_of_instrument at hp
    obtain ⟨pd, hpd, hmap⟩ := Option.map_eq_some'.mp hp
    have hc : (((dictLookup d instrument).getD []).map Prod.fst).contains
        pipeline = false := by
      rw [hpd]
      simpa [hmap] using hnp
    rw [hc]
    simp
  · unfold get_OBS_modes
    have h1 : (get_available_instruments d).contains instrument = true := by
      simpa [get_available_instruments] using mem_keys_of_dictLookup_some hpd
    have h2 : (((dictLookup d instrument).getD []).map Prod.fst).contains
        pipeline = true := by
      rw [hpd]
      simpa using mem_keys_of_dictLookup_some hod
    rw [h1, h2, hpd]
    simp [hod]

/-- Witness for C6 on a one-instrument mapping: a missing instrument fails, a
missing pipeline fails, and valid memberships return the OBS-mode keys. -/
theorem C6_obs_modes_witness :
    get_OBS_modes ([("I", [("P", [("O1", [("rv", 1)])])])] : Data Nat)
      "J" "P" = .error .notFoundError
    ∧ get_OBS_modes ([("I", [("P", [("O1", [("rv", 1)])])])] : Data Nat)
      "I" "Q" = .error .notFoundError
    ∧ get_OBS_modes ([("I", [("P", [("O1", [("rv", 1)])])])] : Data Nat)
      "I" "P" = .ok ["O1"] := by
  refine ⟨?_, ?_, ?_⟩
  · exact (C6_obs_modes_membership
      ([("I", [("P", [("O1", [("rv", 1)])])])] : Data Nat) "J" "P").1
      (by decide)
  · exact (C6_obs_modes_membership
      ([("I", [("P", [("O1", [("rv", 1)])])])] : Data Nat) "I" "Q").2.1
      ["P"] rfl (by decide)
  · exact (C6_obs_modes_membership
      ([("I", [("P", [("O1", [("rv", 1)])])])] : Data Nat) "I" "P").2.2
      [("P", [("O1", [("rv", 1)])])] [("O1", [("rv", 1)])] rfl rfl

lemma read_trace_cached {α : Type} (fetch : Nat → Data α) (dd : Data α)
    (ts : List Nat) :
    read_trace fetch ⟨some dd⟩ ts = (ts.map fun _ => dd, ⟨some dd⟩, 0) := by
  induction ts with
  | nil => rfl
  | cons t ts ih => simp [read_trace, read_data, ih]

/-- C7: the time-series mapping is fetched from the archive client at most
once per `Star` instance — in any non-empty sequence of reads of `_data`, the
first read performs the single fetch and every read (by whatever operation)
returns that identical mapping, even though the upstream archive data
(`fetch` at later times) may change; no refresh path exists. -/
theorem C7_data_fetched_at_most_once {α : Type} (fetch : Nat → Data α)
    (t : Nat) (ts : List Nat) :
    read_trace fetch ⟨none⟩ (t :: ts) =
      ((t :: ts).map fun _ => fetch t, ⟨some (fetch t)⟩, 1) := by
  simp [read_trace, read_data, read_trace_cached]

/-- C8 counterexample: the claim says rewriting and the warning happen only
for the instrument name `"HARPSN"`, but the source tests
`instrument.upper() == "HARPSN"`, so the different name `"harpsn"` is also
rewritten to `"HARPN"` (the traversal then matches the `"HARPN"` key, hence
`count = 1`) and the warning fires (warning counter `1`). -/
theorem C8_counterexample_lowercase_alias :
    ("harpsn" ≠ "HARPSN")
    ∧ download_data
        ([("HARPN", [("p1", [("m1", [("raw_file", [])])])])] :
          Data (List String))
        (fun _ => []) [] false (some "harpsn") none none true =
      .ok (1, [], 1) :=
  ⟨by decide, rfl⟩

/-- C8 (amended): in every invocation of `download_data` whose instrument
argument uppercases to `"HARPSN"` (the source's case-insensitive test), the
instrument is rewritten to `"HARPN"` before any filtering or traversal and
the warning is emitted exactly once for that invocation; for an instrument
whose uppercasing differs from `"HARPSN"` no rewriting and no warning
occurs. -/
theorem C8_alias_normalization (d : Data (List String))
    (fs : DirPath → List String) (output_path : DirPath)
    (force_download : Bool) (OBS_mode pipe_identifier : Option String)
    (allow_subfolders : Bool) (inst : String) :
    (pyUpper inst = "HARPSN" →
      download_data d fs output_path force_download (some inst) OBS_mode
          pipe_identifier allow_subfolders =
        (download_core d fs output_path force_download "HARPN" OBS_mode
            pipe_identifier allow_subfolders).map fun r => (r.1, r.2, 1))
    ∧ (pyUpper inst ≠ "HARPSN" →
      download_data d fs output_path force_download (some inst) OBS_mode
          pipe_identifier allow_subfolders =
        (download_core d fs output_path force_download inst OBS_mode
            pipe_identifier allow_subfolders).map fun r => (r.1, r.2, 0)) := by
  constructor <;> intro h <;> simp [download_data, normalize_instrument, h]

/-- Witness for C8 (amended) at `inst = "HARPSN"`. -/
theorem C8_alias_witness :
    download_data ([] : Data (List String)) (fun _ => []) [] false
        (some "HARPSN") none none true =
      (download_core ([] : Data (List String)) (fun _ => []) [] false
          "HARPN" none none true).map (fun r => (r.1, r.2, 1)) :=
  (C8_alias_normalization [] (fun _ => []) [] false none none true
    "HARPSN").1 (by decide)

/-- C9 (code bug): when the SIMBAD query returns no object (`None`), the
property does fail immediately and never returns a value, but the failure is
the `AttributeError` raised by `print(r.keys())` on line 285, which runs
before the `None` check — the code's own not-found
`raise Exception("Couldn't find …")` on line 287 is unreachable.  The
found-object formula (first two characters with the `"d"` marker stripped)
does hold: `"dM2V"` yields `"M"`. -/
theorem C9_spectral_type_error_kind :
    spectral_type none = .error .attributeError
    ∧ (Except.error PyErr.attributeError : Except PyErr String) ≠
        .error .notFoundError
    ∧ spectral_type (some ["dM2V"]) = .ok "M" :=
  ⟨rfl, fun h => absurd (Except.error.inj h) (by decide), rfl⟩

/-- C10: calling `download_data` with the instrument argument absent (`None`)
raises `AttributeError` at the alias-normalization step
(`instrument.upper()`), before any traversal, grouping, or filesystem
effect — the result is the error for every mapping and every filesystem
state, independent of all other arguments. -/
theorem C10_none_instrument_attribute_error (d : Data (List String))
    (fs : DirPath → List String) (output_path : DirPath)
    (force_download : Bool) (OBS_mode pipe_identifier : Option String)
    (allow_subfolders : Bool) :
    download_data d fs output_path force_download none OBS_mode
      pipe_identifier allow_subfolders = .error .attributeError := rfl

end DACE
